import Mathlib

/-!
Verification of the mimiru backend (src/main.py), a minimal FastAPI app with
in-memory user registration/login and a per-user "chat with your PDF" RAG
pipeline.  The Python endpoints are shallowly embedded as pure Lean functions:
external collaborators (bcrypt hashing/verification, the PDF loader, the text
splitter, the embedding/vector-store library, the LLM call, and the filesystem
calls that can raise) are passed in as oracle parameters, and filesystem side
effects are recorded as an explicit event trace.
-/

deriving instance DecidableEq for Except

namespace Mimiru

/-- HTTP error as raised by `HTTPException(status_code=..., detail=...)`. -/
structure HErr where
  code : Nat
  detail : String
deriving DecidableEq, Repr

/-- A record of `fake_users_db` (main.py line 79): a dict with keys
`id`, `company_name`, `email`, `hashed_password`. -/
structure UserRec where
  id : Nat
  company_name : String
  email : String
  hashed_password : String
deriving DecidableEq, Repr, Inhabited

/-- Request body of `/register` (`UserCreate`). -/
structure UserCreate where
  company_name : String
  email : String
  password : String
deriving DecidableEq, Repr

/-- Response model of `/register` and `/users` (`UserOut`): id, company
name and email only — no password hash field. -/
structure UserOut where
  id : Nat
  company_name : String
  email : String
deriving DecidableEq, Repr

/-- Request body of `/login` (`UserLogin`). -/
structure UserLogin where
  email : String
  password : String
deriving DecidableEq, Repr

/-- Response model of `/login` (`Token`). -/
structure Token where
  access_token : String
  token_type : String
deriving DecidableEq, Repr

/-- Detail string of the duplicate-email 400 (main.py line 76). -/
def dupEmailMsg : String := "このメールアドレスは既に使用されています。"

/-- Detail string of the invalid-credentials 401 (main.py line 88). -/
def invalidCredMsg : String := "メールアドレスまたはパスワードが正しくありません。"

/-- Detail string of the unknown-user 404 on upload (main.py line 98). -/
def userNotFoundMsg : String := "ユーザーが見つかりません。"

/-- Detail string of the non-PDF 400 on upload (main.py line 101). -/
def pdfOnlyMsg : String := "PDFファイルのみアップロードできます。"

/-- Detail string of the ProcessingError 500 (main.py line 131). -/
def processingMsg (e : String) : String :=
  "ファイルの処理中にエラーが発生しました: " ++ e

/-- Detail string of the no-index 404 on chat (main.py line 143). -/
def noIndexMsg : String :=
  "チャットボットの学習データが見つかりません。先にPDFをアップロードしてください。"

/-- Detail string of the GenerationError 500 (main.py line 162). -/
def genErrMsg (e : String) : String :=
  "回答の生成中にエラーが発生しました: " ++ e

/-- Success message of `/upload` (main.py line 128). -/
def uploadOkMsg (filename : String) : String :=
  filename ++ " の読み込みが完了し、AIが学習しました。"

/-- `POST /register` (`create_user`, main.py lines 73-81): scan
`fake_users_db` for an equal email; if found raise 400, otherwise hash the
password and append a record with id `len(fake_users_db) + 1`.  The bcrypt
hash (`get_password_hash`) is the oracle `hashf`.  Returns the response
(or error) together with the resulting user store. -/
def create_user (hashf : String → String) (db : List UserRec) (u : UserCreate) :
    Except HErr UserRec × List UserRec :=
  if db.any (fun r => r.email == u.email) then
    (.error ⟨400, dupEmailMsg⟩, db)
  else
    let newUser : UserRec :=
      { id := db.length + 1, company_name := u.company_name,
        email := u.email, hashed_password := hashf u.password }
    (.ok newUser, db ++ [newUser])

/-- The record appended by a successful `create_user` call
(main.py line 79). -/
def newRec (hashf : String → String) (db : List UserRec) (u : UserCreate) : UserRec :=
  { id := db.length + 1, company_name := u.company_name,
    email := u.email, hashed_password := hashf u.password }

/-- `POST /login` (`login_for_access_token`, main.py lines 85-90): find the
first record whose email equals the form email; if there is none, or the
stored hash does not verify against the supplied password, raise 401;
otherwise return a dummy token.  bcrypt verification (`verify_password`)
is the oracle `verify`. -/
def login (verify : String → String → Bool) (db : List UserRec) (fd : UserLogin) :
    Except HErr Token :=
  match db.find? (fun r => r.email == fd.email) with
  | none => .error ⟨401, invalidCredMsg⟩
  | some user =>
      if verify fd.password user.hashed_password then
        .ok ⟨"dummy_token_for_user_" ++ toString user.id, "bearer"⟩
      else
        .error ⟨401, invalidCredMsg⟩

/-- The two failure conditions of `login`: no record has the email, or the
first matching record's stored hash does not verify. -/
def loginFails (verify : String → String → Bool) (db : List UserRec) (fd : UserLogin) : Prop :=
  db.find? (fun r => r.email == fd.email) = none ∨
  ∃ u, db.find? (fun r => r.email == fd.email) = some u ∧
    verify fd.password u.hashed_password = false

/-- Projection of a stored record to the `UserOut` response model. -/
def toUserOut (r : UserRec) : UserOut :=
  ⟨r.id, r.company_name, r.email⟩

/-- `GET /users` (`read_users`, main.py lines 167-168): returns
`fake_users_db` serialized through `response_model=List[UserOut]`
(main.py line 166), which keeps id, company_name and email and drops
`hashed_password`. -/
def read_users (db : List UserRec) : List UserOut :=
  db.map toUserOut

/-- Observable side effects of the upload and chat endpoints: filesystem
writes/removals of the temporary PDF (main.py lines 109-110 and 126) and
invocation of the external retrieval/generation chain
(main.py lines 147-157). -/
inductive Eff where
  | fileWrite : String → Eff
  | fileRemove : String → Eff
  | llmInvoke : Eff
deriving DecidableEq, Repr

/-- Oracle for the external calls made inside the `try` block of
`upload_pdf`, each of which may raise: `await file.read()` (line 105),
`PyPDFLoader(...).load()` (lines 112-113), the splitter (lines 116-117),
`Chroma.from_documents` with Google embeddings (lines 120-121), and
`os.remove` (line 126).  `V` is the opaque type of vector stores. -/
structure Env (V : Type) where
  readRes : Except String Unit
  loadRes : Except String (List String)
  splitRes : List String → Except String (List String)
  embedRes : List String → Except String V
  removeRes : Except String Unit

/-- The Python dict lookup `vector_stores.get(user_id)` on the registry,
modelled as an association list with unique keys. -/
def dictGet {V : Type} (stores : List (Nat × V)) (k : Nat) : Option V :=
  (stores.find? (fun p => p.1 == k)).map Prod.snd

/-- The Python dict assignment `vector_stores[user_id] = vector_store`
(main.py line 124): replace the value at an existing key in place, else
append a new binding. -/
def dictInsert {V : Type} : List (Nat × V) → Nat → V → List (Nat × V)
  | [], k, v => [(k, v)]
  | (k', v') :: rest, k, v =>
      if k' = k then (k, v) :: rest else (k', v') :: dictInsert rest k v

/-- Number of bindings for key `k` in the registry. -/
def countKey {V : Type} (stores : List (Nat × V)) (k : Nat) : Nat :=
  (stores.filter (fun p => p.1 == k)).length

/-- Result of an `upload_pdf` call: the HTTP outcome, the resulting vector
index registry, and the trace of filesystem effects. -/
structure UploadResult (V : Type) where
  status : Except HErr String
  stores : List (Nat × V)
  effects : List Eff
deriving DecidableEq, Repr

/-- `POST /upload` (`upload_pdf`, main.py lines 94-131): check the user id
exists (404), check `file.content_type != 'application/pdf'` (400), then in
a `try` block read the upload, write it to `/tmp/{file.filename}`, load,
split, embed/index, store the index under `user_id`, and remove the temp
file; any exception in the block becomes a 500 with `processingMsg`.  Note
the registry assignment (line 124) precedes `os.remove` (line 126). -/
def upload_pdf {V : Type} (env : Env V) (users : List UserRec)
    (stores : List (Nat × V)) (user_id : Nat) (filename content_type : String) :
    UploadResult V :=
  match users.find? (fun u => u.id == user_id) with
  | none => ⟨.error ⟨404, userNotFoundMsg⟩, stores, []⟩
  | some _ =>
    if content_type ≠ "application/pdf" then
      ⟨.error ⟨400, pdfOnlyMsg⟩, stores, []⟩
    else
      match env.readRes with
      | .error e => ⟨.error ⟨500, processingMsg e⟩, stores, []⟩
      | .ok _ =>
        let path := "/tmp/" ++ filename
        match env.loadRes with
        | .error e => ⟨.error ⟨500, processingMsg e⟩, stores, [.fileWrite path]⟩
        | .ok docs =>
          match env.splitRes docs with
          | .error e => ⟨.error ⟨500, processingMsg e⟩, stores, [.fileWrite path]⟩
          | .ok texts =>
            match env.embedRes texts with
            | .error e => ⟨.error ⟨500, processingMsg e⟩, stores, [.fileWrite path]⟩
            | .ok v =>
              let stores1 := dictInsert stores user_id v
              match env.removeRes with
              | .error e =>
                  ⟨.error ⟨500, processingMsg e⟩, stores1, [.fileWrite path]⟩
              | .ok _ =>
                  ⟨.ok (uploadOkMsg filename), stores1,
                    [.fileWrite path, .fileRemove path]⟩

/-- The vector store a given environment produces from its own document:
the read-load-split-embed pipeline of `upload_pdf`, independent of the
registry and of any earlier upload. -/
def pipelineOutput {V : Type} (env : Env V) : Except String V := do
  let _ ← env.readRes
  let docs ← env.loadRes
  let texts ← env.splitRes docs
  env.embedRes texts

/-- `POST /chat` (`chat_with_bot`, main.py lines 136-162): look up the
user's vector store; if absent raise 404 without touching any external
dependency; otherwise build the RAG chain and invoke it on the question
(the oracle `gen`), surfacing a failure as a 500 with `genErrMsg`. -/
def chat_with_bot {V : Type} (gen : String → Except String String)
    (stores : List (Nat × V)) (user_id : Nat) (question : String) :
    Except HErr String × List Eff :=
  match dictGet stores user_id with
  | none => (.error ⟨404, noIndexMsg⟩, [])
  | some _ =>
    match gen question with
    | .ok answer => (.ok answer, [.llmInvoke])
    | .error e => (.error ⟨500, genErrMsg e⟩, [.llmInvoke])

/-! Helper lemmas. -/

theorem dictGet_dictInsert_self {V : Type} (s : List (Nat × V)) (k : Nat) (v : V) :
    dictGet (dictInsert s k v) k = some v := by
  induction s with
  | nil => simp [dictInsert, dictGet]
  | cons p rest ih =>
      obtain ⟨k', v'⟩ := p
      by_cases h : k' = k
      · subst h; simp [dictInsert, dictGet]
      · simpa [dictInsert, dictGet, h] using ih

theorem countKey_cons {V : Type} (k' : Nat) (v' : V) (rest : List (Nat × V)) (k : Nat) :
    countKey ((k', v') :: rest) k = (if k' = k then 1 else 0) + countKey rest k := by
  by_cases h : k' = k <;> simp [countKey, h, Nat.add_comm]

theorem countKey_dictInsert {V : Type} (s : List (Nat × V)) (k : Nat) (v : V)
    (h : countKey s k ≤ 1) : countKey (dictInsert s k v) k = 1 := by
  induction s with
  | nil => simp [dictInsert, countKey]
  | cons p rest ih =>
      obtain ⟨k', v'⟩ := p
      by_cases hk : k' = k
      · have h0 : countKey rest k = 0 := by
          rw [countKey_cons, if_pos hk] at h
          omega
        rw [show dictInsert ((k', v') :: rest) k v = (k, v) :: rest by
          simp [dictInsert, hk]]
        rw [countKey_cons, if_pos rfl, h0]
      · have h1 : countKey rest k ≤ 1 := by
          rw [countKey_cons, if_neg hk] at h
          omega
        rw [show dictInsert ((k', v') :: rest) k v = (k', v') :: dictInsert rest k v by
          simp [dictInsert, hk]]
        rw [countKey_cons, if_neg hk, ih h1]

theorem list_map_set_same {α β : Type} (f : α → β) :
    ∀ (l : List α) (i : Nat) (u a : α), l[i]? = some u → f a = f u →
      (l.set i a).map f = l.map f
  | [], i, u, a, h, _ => by simp at h
  | x :: t, 0, u, a, h, hfa => by
      simp at h
      subst h
      simp [hfa]
  | x :: t, i + 1, u, a, h, hfa => by
      simp at h
      simp [list_map_set_same f t i u a h hfa]

/-! Claim theorems. -/

/-- C1: a register call whose email exactly matches the email of a record
already in the store fails with the duplicate-email 400 and leaves the user
store unchanged (same size and same records). -/
theorem create_user_duplicate_email_rejected (hashf : String → String)
    (db : List UserRec) (u : UserCreate)
    (h : ∃ r ∈ db, r.email = u.email) :
    create_user hashf db u = (.error ⟨400, dupEmailMsg⟩, db) := by
  obtain ⟨r, hr, he⟩ := h
  have hany : db.any (fun r => r.email == u.email) = true :=
    List.any_eq_true.mpr ⟨r, hr, by simp [he]⟩
  simp [create_user, hany]

theorem create_user_duplicate_email_rejected_witness :
    create_user (fun p => "H" ++ p)
      [⟨1, "Acme", "a@x.com", "Hpw"⟩] ⟨"Evil", "a@x.com", "pw2"⟩ =
      (.error ⟨400, dupEmailMsg⟩, [⟨1, "Acme", "a@x.com", "Hpw"⟩]) :=
  create_user_duplicate_email_rejected _ _ _
    ⟨⟨1, "Acme", "a@x.com", "Hpw"⟩, by simp, rfl⟩

/-- C2: a login with an email that matches no record, and a login whose
email matches a record but whose password does not verify against the
stored hash, both fail with the same 401 error — the two failures are
indistinguishable. -/
theorem login_failures_indistinguishable (verify : String → String → Bool)
    (db : List UserRec) (fd fd' : UserLogin)
    (h : loginFails verify db fd) (h' : loginFails verify db fd') :
    login verify db fd = .error ⟨401, invalidCredMsg⟩ ∧
    login verify db fd = login verify db fd' := by
  have key : ∀ g, loginFails verify db g →
      login verify db g = .error ⟨401, invalidCredMsg⟩ := by
    intro g hg
    rcases hg with hnone | ⟨w, hw, hv⟩
    · simp [login, hnone]
    · simp [login, hw, hv]
  exact ⟨key fd h, (key fd h).trans (key fd' h').symm⟩

theorem login_failures_indistinguishable_witness :
    login (fun p hs => p == "pw" && hs == "Hpw")
      [⟨1, "Acme", "a@x.com", "Hpw"⟩] ⟨"b@x.com", "pw"⟩ =
      .error ⟨401, invalidCredMsg⟩ ∧
    login (fun p hs => p == "pw" && hs == "Hpw")
      [⟨1, "Acme", "a@x.com", "Hpw"⟩] ⟨"b@x.com", "pw"⟩ =
    login (fun p hs => p == "pw" && hs == "Hpw")
      [⟨1, "Acme", "a@x.com", "Hpw"⟩] ⟨"a@x.com", "wrong"⟩ :=
  login_failures_indistinguishable _ _ _ _
    (Or.inl rfl) (Or.inr ⟨⟨1, "Acme", "a@x.com", "Hpw"⟩, rfl, rfl⟩)

/-- C5: a register call with a fresh email succeeds, appends exactly one
record with id `n + 1` where `n` is the current store size, and preserves
the invariant that ids in insertion order are exactly `1, 2, ..., n` —
hence ids are unique, increasing, and the first registered user has id 1. -/
theorem create_user_fresh_appends_sequential_id (hashf : String → String)
    (db : List UserRec) (u : UserCreate)
    (h : ∀ r ∈ db, r.email ≠ u.email) :
    create_user hashf db u =
      (.ok (newRec hashf db u), db ++ [newRec hashf db u]) ∧
    (newRec hashf db u).id = db.length + 1 ∧
    (db.map UserRec.id = List.range' 1 db.length →
      (db ++ [newRec hashf db u]).map UserRec.id =
        List.range' 1 (db.length + 1) ∧
      ((db ++ [newRec hashf db u]).map UserRec.id).Nodup ∧
      ((db ++ [newRec hashf db u]).map UserRec.id).head? = some 1) := by
  have hany : db.any (fun r => r.email == u.email) = false := by
    rw [List.any_eq_false]
    intro r hr
    simpa using h r hr
  refine ⟨by simp [create_user, newRec, hany], rfl, ?_⟩
  intro hseq
  have hcat : List.range' 1 (db.length + 1) =
      List.range' 1 db.length ++ [db.length + 1] := by
    have h2 := @List.range'_concat 1 1 db.length
    simpa [Nat.add_comm] using h2
  have hmap : (db ++ [newRec hashf db u]).map UserRec.id =
      List.range' 1 (db.length + 1) := by
    rw [List.map_append, hseq, hcat]
    simp [newRec]
  refine ⟨hmap, ?_, ?_⟩
  · rw [hmap]
    exact List.nodup_range' 1 (db.length + 1) 1 (by omega)
  · rw [hmap, List.range'_succ]
    rfl

theorem create_user_fresh_appends_sequential_id_witness :
    create_user (fun p => "H" ++ p) ([] : List UserRec) ⟨"Acme", "a@x.com", "pw"⟩ =
      (.ok (newRec (fun p => "H" ++ p) ([] : List UserRec) ⟨"Acme", "a@x.com", "pw"⟩),
       ([] : List UserRec) ++
         [newRec (fun p => "H" ++ p) ([] : List UserRec) ⟨"Acme", "a@x.com", "pw"⟩]) ∧
    (newRec (fun p => "H" ++ p) ([] : List UserRec) ⟨"Acme", "a@x.com", "pw"⟩).id =
      ([] : List UserRec).length + 1 ∧
    (([] : List UserRec).map UserRec.id = List.range' 1 ([] : List UserRec).length →
      (([] : List UserRec) ++
        [newRec (fun p => "H" ++ p) ([] : List UserRec) ⟨"Acme", "a@x.com", "pw"⟩]).map
          UserRec.id = List.range' 1 (([] : List UserRec).length + 1) ∧
      ((([] : List UserRec) ++
        [newRec (fun p => "H" ++ p) ([] : List UserRec) ⟨"Acme", "a@x.com", "pw"⟩]).map
          UserRec.id).Nodup ∧
      ((([] : List UserRec) ++
        [newRec (fun p => "H" ++ p) ([] : List UserRec) ⟨"Acme", "a@x.com", "pw"⟩]).map
          UserRec.id).head? = some 1) :=
  create_user_fresh_appends_sequential_id _ _ _ (by simp)

/-- C9: `read_users` has the same length as the store, returns at each
position the id/company_name/email projection of the record at that
position (insertion order preserved), and its output is unchanged when a
record's password hash is replaced — the hash does not appear in the
output. -/
theorem read_users_insertion_order_no_hash (db : List UserRec) (i : Nat)
    (nh : String) (u : UserRec) (h : db[i]? = some u) :
    (read_users db).length = db.length ∧
    (read_users db)[i]? = some (toUserOut u) ∧
    read_users (db.set i { u with hashed_password := nh }) = read_users db := by
  refine ⟨by simp [read_users], ?_, ?_⟩
  · rw [read_users, List.getElem?_map, h]
    rfl
  · exact list_map_set_same toUserOut db i u _ h rfl

theorem read_users_insertion_order_no_hash_witness :
    (read_users [⟨1, "A", "a@x.com", "H1"⟩, ⟨2, "B", "b@x.com", "H2"⟩]).length =
      ([⟨1, "A", "a@x.com", "H1"⟩, ⟨2, "B", "b@x.com", "H2"⟩] : List UserRec).length ∧
    (read_users [⟨1, "A", "a@x.com", "H1"⟩, ⟨2, "B", "b@x.com", "H2"⟩])[0]? =
      some (toUserOut ⟨1, "A", "a@x.com", "H1"⟩) ∧
    read_users (([⟨1, "A", "a@x.com", "H1"⟩, ⟨2, "B", "b@x.com", "H2"⟩] : List UserRec).set 0
        { (⟨1, "A", "a@x.com", "H1"⟩ : UserRec) with hashed_password := "X" }) =
      read_users [⟨1, "A", "a@x.com", "H1"⟩, ⟨2, "B", "b@x.com", "H2"⟩] :=
  read_users_insertion_order_no_hash _ 0 "X" _ rfl

/-- Characterization of a successful upload: the pipeline succeeds on the
environment's own document, the temp-file removal succeeds, and the
resulting registry is the old one with the pipeline's index stored under
the user id. -/
theorem upload_ok_inv {V : Type} (env : Env V) (users : List UserRec)
    (stores : List (Nat × V)) (uid : Nat) (fn ct : String) (m : String)
    (h : (upload_pdf env users stores uid fn ct).status = .ok m) :
    ∃ v, pipelineOutput env = .ok v ∧
      (upload_pdf env users stores uid fn ct).stores = dictInsert stores uid v := by
  cases hf : users.find? (fun u => u.id == uid) with
  | none => simp [upload_pdf, hf] at h
  | some w =>
    by_cases hct : ct = "application/pdf"
    · cases hrd : env.readRes with
      | error e => simp [upload_pdf, hf, hct, hrd] at h
      | ok un =>
        cases hl : env.loadRes with
        | error e => simp [upload_pdf, hf, hct, hrd, hl] at h
        | ok docs =>
          cases hs : env.splitRes docs with
          | error e => simp [upload_pdf, hf, hct, hrd, hl, hs] at h
          | ok texts =>
            cases he : env.embedRes texts with
            | error e => simp [upload_pdf, hf, hct, hrd, hl, hs, he] at h
            | ok v =>
              cases hr : env.removeRes with
              | error e => simp [upload_pdf, hf, hct, hrd, hl, hs, he, hr] at h
              | ok un2 =>
                  refine ⟨v, ?_, ?_⟩
                  · simp [pipelineOutput, hrd, hl, hs, he, bind, Except.bind]
                  · simp [upload_pdf, hf, hct, hrd, hl, hs, he, hr]
    · simp [upload_pdf, hf, hct] at h

/-- C3 (amended): for an upload call that reaches the step of persisting
the bytes to the temporary file, the file is written, and it is removed
exactly when the call succeeds — on any failure after persisting, the
temporary file is not removed. -/
theorem upload_temp_file_removed_iff_success {V : Type} (env : Env V)
    (users : List UserRec) (stores : List (Nat × V)) (uid : Nat) (fn ct : String)
    (hu : (users.find? (fun u => u.id == uid)).isSome = true)
    (hct : ct = "application/pdf")
    (hrd : env.readRes = .ok ()) :
    Eff.fileWrite ("/tmp/" ++ fn) ∈ (upload_pdf env users stores uid fn ct).effects ∧
    (Eff.fileRemove ("/tmp/" ++ fn) ∈ (upload_pdf env users stores uid fn ct).effects ↔
      ∃ m, (upload_pdf env users stores uid fn ct).status = .ok m) := by
  obtain ⟨w, hf⟩ := Option.isSome_iff_exists.mp hu
  cases hl : env.loadRes with
  | error e => simp [upload_pdf, hf, hct, hrd, hl]
  | ok docs =>
    cases hs : env.splitRes docs with
    | error e => simp [upload_pdf, hf, hct, hrd, hl, hs]
    | ok texts =>
      cases he : env.embedRes texts with
      | error e => simp [upload_pdf, hf, hct, hrd, hl, hs, he]
      | ok v =>
        cases hr : env.removeRes with
        | error e => simp [upload_pdf, hf, hct, hrd, hl, hs, he, hr]
        | ok un2 => simp [upload_pdf, hf, hct, hrd, hl, hs, he, hr]

theorem upload_temp_file_removed_iff_success_witness :
    Eff.fileWrite ("/tmp/" ++ "doc.pdf") ∈
      (upload_pdf (V := Nat) ⟨.ok (), .ok ["p"], fun ts => .ok ts, fun _ => .ok 7, .ok ()⟩
        [⟨1, "Acme", "a@x.com", "H"⟩] [] 1 "doc.pdf" "application/pdf").effects ∧
    (Eff.fileRemove ("/tmp/" ++ "doc.pdf") ∈
      (upload_pdf (V := Nat) ⟨.ok (), .ok ["p"], fun ts => .ok ts, fun _ => .ok 7, .ok ()⟩
        [⟨1, "Acme", "a@x.com", "H"⟩] [] 1 "doc.pdf" "application/pdf").effects ↔
      ∃ m, (upload_pdf (V := Nat) ⟨.ok (), .ok ["p"], fun ts => .ok ts, fun _ => .ok 7, .ok ()⟩
        [⟨1, "Acme", "a@x.com", "H"⟩] [] 1 "doc.pdf" "application/pdf").status = .ok m) :=
  upload_temp_file_removed_iff_success _ _ _ _ _ _ rfl rfl rfl

/-- C3 counterexample: a run that persists the bytes (the temp file is
written) and then fails at the PDF-loading step returns the 500 processing
error without ever removing the temporary file — so the file is not
removed "regardless of success or failure". -/
theorem upload_temp_file_leak_on_failure :
    (upload_pdf (V := Nat)
        ⟨.ok (), .error "broken pdf", fun ts => .ok ts, fun _ => .ok 7, .ok ()⟩
        [⟨1, "Acme", "a@x.com", "H"⟩] [] 1 "doc.pdf" "application/pdf").status =
      .error ⟨500, processingMsg "broken pdf"⟩ ∧
    Eff.fileWrite ("/tmp/" ++ "doc.pdf") ∈
      (upload_pdf (V := Nat)
        ⟨.ok (), .error "broken pdf", fun ts => .ok ts, fun _ => .ok 7, .ok ()⟩
        [⟨1, "Acme", "a@x.com", "H"⟩] [] 1 "doc.pdf" "application/pdf").effects ∧
    Eff.fileRemove ("/tmp/" ++ "doc.pdf") ∉
      (upload_pdf (V := Nat)
        ⟨.ok (), .error "broken pdf", fun ts => .ok ts, fun _ => .ok 7, .ok ()⟩
        [⟨1, "Acme", "a@x.com", "H"⟩] [] 1 "doc.pdf" "application/pdf").effects := by
  refine ⟨rfl, ?_, ?_⟩ <;> simp [upload_pdf]

/-- C4 (amended): whenever the temp-file removal itself does not fail —
in particular on every failure arising before index registration (read,
load, split, embed) and on the user/content-type checks — an upload call
that returns an error leaves the vector index registry unchanged. -/
theorem upload_registry_unchanged_on_early_failure {V : Type} (env : Env V)
    (users : List UserRec) (stores : List (Nat × V)) (uid : Nat) (fn ct : String)
    (hrm : env.removeRes = .ok ()) (e : HErr)
    (h : (upload_pdf env users stores uid fn ct).status = .error e) :
    (upload_pdf env users stores uid fn ct).stores = stores := by
  cases hf : users.find? (fun u => u.id == uid) with
  | none => simp [upload_pdf, hf]
  | some w =>
    by_cases hct : ct = "application/pdf"
    · cases hrd : env.readRes with
      | error e1 => simp [upload_pdf, hf, hct, hrd]
      | ok un =>
        cases hl : env.loadRes with
        | error e2 => simp [upload_pdf, hf, hct, hrd, hl]
        | ok docs =>
          cases hs : env.splitRes docs with
          | error e3 => simp [upload_pdf, hf, hct, hrd, hl, hs]
          | ok texts =>
            cases he : env.embedRes texts with
            | error e4 => simp [upload_pdf, hf, hct, hrd, hl, hs, he]
            | ok v => simp [upload_pdf, hf, hct, hrd, hl, hs, he, hrm] at h
    · simp [upload_pdf, hf, hct]

theorem upload_registry_unchanged_on_early_failure_witness :
    (upload_pdf (V := Nat)
        ⟨.ok (), .error "bad", fun ts => .ok ts, fun _ => .ok 7, .ok ()⟩
        [⟨1, "Acme", "a@x.com", "H"⟩] [] 1 "doc.pdf" "application/pdf").stores = [] :=
  upload_registry_unchanged_on_early_failure _ _ _ _ _ _ rfl
    ⟨500, processingMsg "bad"⟩ rfl

/-- C4 counterexample: when everything up to registration succeeds but
`os.remove` of the temporary file then raises, the call fails with the 500
processing error, yet the registry has already been updated with the new
index — registration (main.py line 124) precedes removal (line 126), so
this ProcessingError path is not atomic with respect to the registry. -/
theorem upload_registry_changed_on_remove_failure :
    (upload_pdf (V := Nat)
        ⟨.ok (), .ok ["p1"], fun ts => .ok ts, fun _ => .ok 7, .error "unlink failed"⟩
        [⟨1, "Acme", "a@x.com", "H"⟩] [] 1 "doc.pdf" "application/pdf").status =
      .error ⟨500, processingMsg "unlink failed"⟩ ∧
    (upload_pdf (V := Nat)
        ⟨.ok (), .ok ["p1"], fun ts => .ok ts, fun _ => .ok 7, .error "unlink failed"⟩
        [⟨1, "Acme", "a@x.com", "H"⟩] [] 1 "doc.pdf" "application/pdf").stores =
      [(1, 7)] :=
  ⟨rfl, rfl⟩

/-- C6: after two successful uploads for the same user (starting from a
registry with at most one binding for that user, as a Python dict
guarantees), the registry holds exactly one index for the user, and that
index is the one produced by the second environment's own pipeline —
the first document contributes nothing. -/
theorem upload_second_replaces_first {V : Type} (env1 env2 : Env V)
    (users : List UserRec) (stores : List (Nat × V)) (uid : Nat)
    (fn1 ct1 fn2 ct2 : String) (m1 m2 : String)
    (hcount : countKey stores uid ≤ 1)
    (h1 : (upload_pdf env1 users stores uid fn1 ct1).status = .ok m1)
    (h2 : (upload_pdf env2 users (upload_pdf env1 users stores uid fn1 ct1).stores
            uid fn2 ct2).status = .ok m2) :
    ∃ v2, pipelineOutput env2 = .ok v2 ∧
      dictGet (upload_pdf env2 users (upload_pdf env1 users stores uid fn1 ct1).stores
          uid fn2 ct2).stores uid = some v2 ∧
      countKey (upload_pdf env2 users (upload_pdf env1 users stores uid fn1 ct1).stores
          uid fn2 ct2).stores uid = 1 := by
  obtain ⟨v1, _, hs1⟩ := upload_ok_inv env1 users stores uid fn1 ct1 m1 h1
  obtain ⟨v2, hp2, hs2⟩ := upload_ok_inv env2 users
    (upload_pdf env1 users stores uid fn1 ct1).stores uid fn2 ct2 m2 h2
  have hc1 : countKey (upload_pdf env1 users stores uid fn1 ct1).stores uid = 1 := by
    rw [hs1]
    exact countKey_dictInsert stores uid v1 hcount
  refine ⟨v2, hp2, ?_, ?_⟩
  · rw [hs2]
    exact dictGet_dictInsert_self _ uid v2
  · rw [hs2]
    exact countKey_dictInsert _ uid v2 (by omega)

theorem upload_second_replaces_first_witness :
    ∃ v2, pipelineOutput (V := Nat)
        ⟨.ok (), .ok ["q"], fun ts => .ok ts, fun _ => .ok 9, .ok ()⟩ = .ok v2 ∧
      dictGet (upload_pdf (V := Nat)
          ⟨.ok (), .ok ["q"], fun ts => .ok ts, fun _ => .ok 9, .ok ()⟩
          [⟨1, "Acme", "a@x.com", "H"⟩]
          (upload_pdf (V := Nat)
            ⟨.ok (), .ok ["p"], fun ts => .ok ts, fun _ => .ok 7, .ok ()⟩
            [⟨1, "Acme", "a@x.com", "H"⟩] [] 1 "a.pdf" "application/pdf").stores
          1 "b.pdf" "application/pdf").stores 1 = some v2 ∧
      countKey (upload_pdf (V := Nat)
          ⟨.ok (), .ok ["q"], fun ts => .ok ts, fun _ => .ok 9, .ok ()⟩
          [⟨1, "Acme", "a@x.com", "H"⟩]
          (upload_pdf (V := Nat)
            ⟨.ok (), .ok ["p"], fun ts => .ok ts, fun _ => .ok 7, .ok ()⟩
            [⟨1, "Acme", "a@x.com", "H"⟩] [] 1 "a.pdf" "application/pdf").stores
          1 "b.pdf" "application/pdf").stores 1 = 1 :=
  upload_second_replaces_first _ _ _ _ _ _ _ _ _ _ _
    (by simp [countKey]) rfl rfl

/-- C7: an upload by an existing user with a content type other than
`application/pdf` fails with the 400 unsupported-content-type error,
leaves the registry unchanged, and produces an empty effect trace — in
particular no bytes are written to temporary storage. -/
theorem upload_non_pdf_no_file_write {V : Type} (env : Env V)
    (users : List UserRec) (stores : List (Nat × V)) (uid : Nat) (fn ct : String)
    (hu : (users.find? (fun u => u.id == uid)).isSome = true)
    (hct : ct ≠ "application/pdf") :
    upload_pdf env users stores uid fn ct = ⟨.error ⟨400, pdfOnlyMsg⟩, stores, []⟩ := by
  obtain ⟨w, hf⟩ := Option.isSome_iff_exists.mp hu
  simp [upload_pdf, hf, hct]

theorem upload_non_pdf_no_file_write_witness :
    upload_pdf (V := Nat)
        ⟨.ok (), .ok ["p"], fun ts => .ok ts, fun _ => .ok 7, .ok ()⟩
        [⟨1, "Acme", "a@x.com", "H"⟩] [] 1 "doc.txt" "text/plain" =
      ⟨.error ⟨400, pdfOnlyMsg⟩, [], []⟩ :=
  upload_non_pdf_no_file_write _ _ _ _ _ _ rfl (by decide)

/-- C10: the content-type check is exact string equality with
`application/pdf` — every other value, including case variants and values
carrying MIME parameters, is rejected with the 400 unsupported error. -/
theorem upload_content_type_exact_match {V : Type} (env : Env V)
    (users : List UserRec) (stores : List (Nat × V)) (uid : Nat) (fn ct : String)
    (hu : (users.find? (fun u => u.id == uid)).isSome = true)
    (hct : ct ≠ "application/pdf") :
    (upload_pdf env users stores uid fn ct).status = .error ⟨400, pdfOnlyMsg⟩ := by
  obtain ⟨w, hf⟩ := Option.isSome_iff_exists.mp hu
  simp [upload_pdf, hf, hct]

theorem upload_content_type_exact_match_witness :
    (upload_pdf (V := Nat)
        ⟨.ok (), .ok ["p"], fun ts => .ok ts, fun _ => .ok 7, .ok ()⟩
        [⟨1, "Acme", "a@x.com", "H"⟩] [] 1 "doc.pdf" "Application/PDF").status =
      .error ⟨400, pdfOnlyMsg⟩ ∧
    (upload_pdf (V := Nat)
        ⟨.ok (), .ok ["p"], fun ts => .ok ts, fun _ => .ok 7, .ok ()⟩
        [⟨1, "Acme", "a@x.com", "H"⟩] [] 1 "doc.pdf"
        "application/pdf; charset=binary").status =
      .error ⟨400, pdfOnlyMsg⟩ :=
  ⟨upload_content_type_exact_match _ _ _ _ _ _ rfl (by decide),
   upload_content_type_exact_match _ _ _ _ _ _ rfl (by decide)⟩

/-- C8: a chat call for a user with no entry in the vector index registry
fails with the 404 no-index error and produces no effects — no external
retrieval or generation dependency is invoked. -/
theorem chat_no_index_fails_404_no_external_call {V : Type}
    (gen : String → Except String String) (stores : List (Nat × V))
    (uid : Nat) (q : String)
    (h : dictGet stores uid = none) :
    chat_with_bot gen stores uid q = (.error ⟨404, noIndexMsg⟩, []) := by
  simp [chat_with_bot, h]

theorem chat_no_index_fails_404_no_external_call_witness :
    chat_with_bot (V := Nat) (fun _ => .ok "an answer") [] 1 "what is this?" =
      (.error ⟨404, noIndexMsg⟩, []) :=
  chat_no_index_fails_404_no_external_call _ _ _ _ rfl

end Mimiru
